import Mathlib

/-!
Shallow embedding of the record classification-and-merge scripts in
`yc_companies` (batch_extract_founders.py, get_founders_from_yc.py,
extract_real_founders.py, find_founders_batch.py).

A CSV row (`csv.DictReader` row) is a Python dict from column name to
string value; we embed it as an association list of string pairs in
insertion order.  `dictFind` is `dict.get(k)` (first matching key),
`dictGetD` is `dict.get(k, default)`, `dictContains` is `k in d`, and
`dictInsert` is the effect of adding one key in a double-splat dict
literal: replace the value in place when the key is present, append at
the end otherwise.
-/

abbrev Dict := List (String × String)

def dictFind : Dict → String → Option String
  | [], _ => none
  | p :: t, k => if p.1 == k then some p.2 else dictFind t k

def dictGetD (d : Dict) (k default : String) : String :=
  (dictFind d k).getD default

def dictContains : Dict → String → Bool
  | [], _ => false
  | p :: t, k => p.1 == k || dictContains t k

def replaceKey (k v : String) (p : String × String) : String × String :=
  if p.1 == k then (k, v) else p

def dictInsert (d : Dict) (k v : String) : Dict :=
  if dictContains d k then d.map (replaceKey k v)
  else d ++ [(k, v)]

/-- The Python method `str.strip`: drop whitespace from both ends.  Defined by
structural recursion on the character list so that concrete instances
evaluate by reduction. -/
def pyStrip (s : String) : String :=
  String.mk (((s.data.dropWhile Char.isWhitespace).reverse.dropWhile
    Char.isWhitespace).reverse)

/-- The Python method `str.startswith`, as a prefix test on the character
list. -/
def pyStartsWith (s pre : String) : Bool :=
  pre.data.isPrefixOf s.data

/-- `is_pattern_data` from batch_extract_founders.py (lines 541-553):
placeholder when the trimmed first name is `"Team"` or empty, the trimmed
email starts with `"hello@"`, or the trimmed LinkedIn value is empty;
missing columns default to the empty string via the `get` default. -/
def is_pattern_data (company : Dict) : Bool :=
  let founder_first := pyStrip (dictGetD company "founder_first_name" "")
  let founder_email := pyStrip (dictGetD company "founder_email" "")
  if founder_first == "Team" || founder_first == "" then true
  else if pyStartsWith founder_email "hello@" then true
  else if pyStrip (dictGetD company "founder_linkedin" "") == "" then true
  else false

/-- `is_pattern_data` from get_founders_from_yc.py (lines 10-23); the body
is a verbatim copy of the one in batch_extract_founders.py. -/
def is_pattern_data_gfy (company : Dict) : Bool :=
  let founder_first := pyStrip (dictGetD company "founder_first_name" "")
  let founder_email := pyStrip (dictGetD company "founder_email" "")
  if founder_first == "Team" || founder_first == "" then true
  else if pyStartsWith founder_email "hello@" then true
  else if pyStrip (dictGetD company "founder_linkedin" "") == "" then true
  else false

/-- The inline elif-chain row-selection condition of
`get_companies_needing_founders` in find_founders_batch.py (lines 14-24):
a row is appended when the first `if`/`elif` branch that fires is one of
the three pattern indicators. -/
def founders_select (c : Dict) : Bool :=
  let founder_first := pyStrip (dictGetD c "founder_first_name" "")
  let founder_email := pyStrip (dictGetD c "founder_email" "")
  if founder_first == "Team" || founder_first == "" then true
  else if pyStartsWith founder_email "hello@" then true
  else if pyStrip (dictGetD c "founder_linkedin" "") == "" then true
  else false

/-- The selection loop of `get_companies_needing_founders`
(find_founders_batch.py lines 13-26) keeps exactly the rows on which a
pattern-indicator branch fires. -/
def get_companies_needing_founders (rows : List Dict) : List Dict :=
  rows.filter founders_select

section DictLemmas

theorem dictFind_map_replace_self (d : Dict) (k v : String) :
    dictFind (d.map (replaceKey k v)) k =
      if dictContains d k then some v else none := by
  induction d with
  | nil => simp [dictFind, dictContains]
  | cons p t ih =>
    by_cases hp : p.1 == k
    · simp [dictFind, dictContains, replaceKey, hp]
    · simp [dictFind, dictContains, replaceKey, hp, ih]

theorem dictFind_map_replace_ne (d : Dict) (k v k' : String)
    (hne : k' ≠ k) :
    dictFind (d.map (replaceKey k v)) k' = dictFind d k' := by
  induction d with
  | nil => simp [dictFind]
  | cons p t ih =>
    by_cases hp : p.1 == k
    · have hpk : p.1 = k := by simpa using hp
      have hk : (k == k') = false := by
        simp only [beq_eq_false_iff_ne]
        exact fun hkk => hne hkk.symm
      have hpk' : (p.1 == k') = false := by
        simpa [hpk] using hk
      simp [dictFind, replaceKey, hp, hk, hpk', ih]
    · simp [dictFind, replaceKey, hp, ih]

theorem dictFind_eq_none_of_not_contains (d : Dict) (k : String)
    (h : dictContains d k = false) : dictFind d k = none := by
  induction d with
  | nil => simp [dictFind]
  | cons p t ih =>
    have hp : (p.1 == k) = false := by
      by_contra hc
      simp [dictContains, eq_true_of_ne_false hc] at h
    have ht : dictContains t k = false := by
      simpa [dictContains, hp] using h
    simp [dictFind, hp, ih ht]

theorem dictFind_append (d e : Dict) (k : String) :
    dictFind (d ++ e) k = ((dictFind d k).or (dictFind e k)) := by
  induction d with
  | nil => simp [dictFind]
  | cons p t ih =>
    by_cases hp : p.1 == k
    · simp [dictFind, hp]
    · simp [dictFind, hp, ih]

theorem dictFind_insert_self (d : Dict) (k v : String) :
    dictFind (dictInsert d k v) k = some v := by
  unfold dictInsert
  by_cases h : dictContains d k
  · simp [h, dictFind_map_replace_self]
  · have hf : dictFind d k = none :=
      dictFind_eq_none_of_not_contains d k (by simpa using h)
    simp [h, dictFind_append, hf, dictFind]

theorem dictFind_insert_ne (d : Dict) (k v k' : String) (hne : k' ≠ k) :
    dictFind (dictInsert d k v) k' = dictFind d k' := by
  unfold dictInsert
  by_cases h : dictContains d k
  · simp [h, dictFind_map_replace_ne d k v k' hne]
  · have hk : (k == k') = false := by
      simp only [beq_eq_false_iff_ne]
      exact fun hkk => hne hkk.symm
    simp [h, dictFind_append, dictFind, hk]

end DictLemmas

/-- One value of the `REAL_FOUNDER_DATA` table in batch_extract_founders.py:
each entry is a dict literal with exactly the keys `founder_first`,
`founder_last`, `founder_email`, `founder_linkedin`, `website`. -/
structure RealData where
  founder_first : String
  founder_last : String
  founder_email : String
  founder_linkedin : String
  website : String
deriving DecidableEq, Repr

/-- `update_company_with_real_data` from batch_extract_founders.py
(lines 555-575): reads the four auxiliary fields with `dict.get` and a
default (used only when the key is absent), then builds a double-splat
dict literal that overwrites the five founder and website fields, the four
auxiliary fields, and `data_quality`; its effect key by key, in literal
order, is `dictInsert`. -/
def update_company_with_real_data (company : Dict) (real_data : RealData) :
    Dict :=
  let jobs :=
    dictGetD company "job_openings" "Software Engineering Intern, Product Intern"
  let funding_stage := dictGetD company "funding_stage" "Seed"
  let amount_raised := dictGetD company "amount_raised" "$1.5M"
  let date_raised := dictGetD company "date_raised" "Summer 2025"
  dictInsert (dictInsert (dictInsert (dictInsert (dictInsert (dictInsert
    (dictInsert (dictInsert (dictInsert (dictInsert company
      "founder_first_name" real_data.founder_first)
      "founder_last_name" real_data.founder_last)
      "founder_email" real_data.founder_email)
      "founder_linkedin" real_data.founder_linkedin)
      "website" real_data.website)
      "job_openings" jobs)
      "funding_stage" funding_stage)
      "amount_raised" amount_raised)
      "date_raised" date_raised)
      "data_quality" "âœ… REAL"

section UpdateLemmas

/-- Master characterisation of a lookup in the merged record: the ten
written keys take the inserted values, every other key falls through to the
input record. -/
theorem dictFind_update (c : Dict) (rd : RealData) (k : String) :
    dictFind (update_company_with_real_data c rd) k =
      if k = "data_quality" then some "âœ… REAL"
      else if k = "date_raised" then
        some (dictGetD c "date_raised" "Summer 2025")
      else if k = "amount_raised" then
        some (dictGetD c "amount_raised" "$1.5M")
      else if k = "funding_stage" then
        some (dictGetD c "funding_stage" "Seed")
      else if k = "job_openings" then
        some (dictGetD c "job_openings"
          "Software Engineering Intern, Product Intern")
      else if k = "website" then some rd.website
      else if k = "founder_linkedin" then some rd.founder_linkedin
      else if k = "founder_email" then some rd.founder_email
      else if k = "founder_last_name" then some rd.founder_last
      else if k = "founder_first_name" then some rd.founder_first
      else dictFind c k := by
  unfold update_company_with_real_data
  by_cases h1 : k = "data_quality"
  · subst h1; simp [dictFind_insert_self]
  rw [dictFind_insert_ne _ _ _ _ (by simpa [eq_comm] using h1)]
  by_cases h2 : k = "date_raised"
  · subst h2; simp [dictFind_insert_self]
  rw [dictFind_insert_ne _ _ _ _ (by simpa [eq_comm] using h2)]
  by_cases h3 : k = "amount_raised"
  · subst h3; simp [dictFind_insert_self, h1]
  rw [dictFind_insert_ne _ _ _ _ (by simpa [eq_comm] using h3)]
  by_cases h4 : k = "funding_stage"
  · subst h4; simp [dictFind_insert_self]
  rw [dictFind_insert_ne _ _ _ _ (by simpa [eq_comm] using h4)]
  by_cases h5 : k = "job_openings"
  · subst h5; simp [dictFind_insert_self]
  rw [dictFind_insert_ne _ _ _ _ (by simpa [eq_comm] using h5)]
  by_cases h6 : k = "website"
  · subst h6; simp [dictFind_insert_self]
  rw [dictFind_insert_ne _ _ _ _ (by simpa [eq_comm] using h6)]
  by_cases h7 : k = "founder_linkedin"
  · subst h7; simp [dictFind_insert_self]
  rw [dictFind_insert_ne _ _ _ _ (by simpa [eq_comm] using h7)]
  by_cases h8 : k = "founder_email"
  · subst h8; simp [dictFind_insert_self]
  rw [dictFind_insert_ne _ _ _ _ (by simpa [eq_comm] using h8)]
  by_cases h9 : k = "founder_last_name"
  · subst h9; simp [dictFind_insert_self]
  rw [dictFind_insert_ne _ _ _ _ (by simpa [eq_comm] using h9)]
  by_cases h10 : k = "founder_first_name"
  · subst h10; simp [dictFind_insert_self]
  rw [dictFind_insert_ne _ _ _ _ (by simpa [eq_comm] using h10)]
  simp [h1, h2, h3, h4, h5, h6, h7, h8, h9, h10]

end UpdateLemmas

/-! ### Slug extractor

`extract_company_slug` appears verbatim in extract_real_founders.py
(lines 11-18) and get_founders_from_yc.py (lines 25-32): a falsy input
(`None` or `""`) yields `None`; otherwise a regex search for the pattern
`/companies/([^/]+)` finds the leftmost position where `/companies/` is
followed by at least one non-`/` character and captures the maximal run of
non-`/` characters, else yields `None`.  `slugSearch` is that leftmost
search, `slugMatchAt` the attempt at one position. -/

def markerChars : List Char := "/companies/".data

def slugMatchAt (l : List Char) : Option (List Char) :=
  if markerChars.isPrefixOf l then
    let cap := (l.drop markerChars.length).takeWhile (fun c => c != '/')
    if cap = [] then none else some cap
  else none

def slugSearch : List Char → Option (List Char)
  | [] => none
  | c :: rest =>
    match slugMatchAt (c :: rest) with
    | some cap => some cap
    | none => slugSearch rest

def extract_company_slug (yc_link : Option String) : Option String :=
  match yc_link with
  | none => none
  | some s => if s = "" then none else (slugSearch s.data).map String.mk

section SlugLemmas

theorem slugSearch_eq_none (l : List Char)
    (h : ∀ i, i < l.length → ¬ (markerChars <+: l.drop i)) :
    slugSearch l = none := by
  induction l with
  | nil => rfl
  | cons c rest ih =>
    have h0 : ¬ (markerChars <+: (c :: rest)) := by
      simpa using h 0 (by simp)
    have hrest : ∀ i, i < rest.length → ¬ (markerChars <+: rest.drop i) := by
      intro i hi
      simpa [List.drop_succ_cons] using h (i + 1) (by simpa using hi)
    simp [slugSearch, slugMatchAt, h0, ih hrest]

theorem slugMatchAt_eq_none (l : List Char) (h : ¬ (markerChars <+: l)) :
    slugMatchAt l = none := by
  simp [slugMatchAt, h]

theorem slugSearch_of_matchAt (l cap : List Char)
    (h : slugMatchAt l = some cap) : slugSearch l = some cap := by
  cases l with
  | nil => simp [slugMatchAt, markerChars] at h
  | cons c rest => simp [slugSearch, h]

theorem slugMatchAt_marker (slug post : List Char) (h2 : slug ≠ [])
    (h3 : (slug ++ post).takeWhile (fun c => c != '/') = slug) :
    slugMatchAt (markerChars ++ slug ++ post) = some slug := by
  have hpre : markerChars.isPrefixOf (markerChars ++ (slug ++ post)) = true := by
    simp [List.isPrefixOf_iff_prefix]
  have hdrop : (markerChars ++ (slug ++ post)).drop markerChars.length =
      slug ++ post := List.drop_left markerChars (slug ++ post)
  simp [slugMatchAt, hpre, hdrop, h3, h2]

theorem slugSearch_append (pre slug post : List Char)
    (h1 : ∀ i, i < pre.length →
      ¬ (markerChars <+: (pre ++ markerChars ++ slug ++ post).drop i))
    (h2 : slug ≠ [])
    (h3 : (slug ++ post).takeWhile (fun c => c != '/') = slug) :
    slugSearch (pre ++ markerChars ++ slug ++ post) = some slug := by
  induction pre with
  | nil =>
    simpa using slugSearch_of_matchAt _ slug (slugMatchAt_marker slug post h2 h3)
  | cons a pre' ih =>
    have h0 : ¬ markerChars <+: (a :: (pre' ++ markerChars ++ slug ++ post)) := by
      have hb := h1 0 (by simp)
      simpa [List.drop_zero, List.cons_append] using hb
    have hrest : ∀ i, i < pre'.length →
        ¬ (markerChars <+: (pre' ++ markerChars ++ slug ++ post).drop i) := by
      intro i hi
      simpa [List.drop_succ_cons] using h1 (i + 1) (by simpa using hi)
    have hm : slugMatchAt (a :: (pre' ++ markerChars ++ slug ++ post)) = none :=
      slugMatchAt_eq_none _ h0
    simp only [List.cons_append, slugSearch, List.append_eq, hm]
    exact ih hrest

end SlugLemmas

/-- C6: `extract_company_slug` returns `None` for absent input, for the
empty string, and for any input in which the literal `/companies/` never
occurs; when the input decomposes as `pre ++ "/companies/" ++ slug ++ post`
with no occurrence of the literal starting inside `pre`, a non-empty
`slug`, and `slug` the maximal run of non-`/` characters at that point, it
returns exactly `slug` verbatim; the three concrete examples of the spec are
included.  The function is total, so no input raises. -/
theorem extract_company_slug_spec :
    extract_company_slug none = none ∧
    extract_company_slug (some "") = none ∧
    (∀ s : String,
      (∀ i, i < s.data.length → ¬ (markerChars <+: s.data.drop i)) →
      extract_company_slug (some s) = none) ∧
    (∀ pre slug post : List Char,
      (∀ i, i < pre.length →
        ¬ (markerChars <+: (pre ++ markerChars ++ slug ++ post).drop i)) →
      slug ≠ [] →
      (slug ++ post).takeWhile (fun c => c != '/') = slug →
      extract_company_slug
          (some (String.mk (pre ++ markerChars ++ slug ++ post))) =
        some (String.mk slug)) ∧
    extract_company_slug (some "https://example.com/companies/acme-inc") =
      some "acme-inc" ∧
    extract_company_slug (some "https://example.com/about") = none := by
  refine ⟨rfl, rfl, ?_, ?_, by decide, by decide⟩
  · intro s hs
    by_cases hse : s = ""
    · simp [extract_company_slug, hse]
    · simp [extract_company_slug, hse, slugSearch_eq_none s.data hs]
  · intro pre slug post hp h2 h3
    have hne : String.mk (pre ++ markerChars ++ slug ++ post) ≠ "" := by
      intro hq
      have hdata := congrArg String.data hq
      simp [markerChars] at hdata
    have hred : (String.mk (pre ++ markerChars ++ slug ++ post)).data =
        pre ++ markerChars ++ slug ++ post := rfl
    simp only [extract_company_slug, hred]
    rw [if_neg hne, slugSearch_append pre slug post hp h2 h3]
    rfl

/-- Witness for C6: the positive clause applied at a concrete URL split
around the marker, and the no-marker clause applied at a concrete
marker-free string. -/
theorem extract_company_slug_spec_witness :
    extract_company_slug (some (String.mk
        ("https://www.ycombinator.com".data ++ markerChars ++
          "airhart".data ++ "/jobs".data))) =
      some (String.mk "airhart".data) ∧
    extract_company_slug (some "index.html") = none :=
  ⟨extract_company_slug_spec.2.2.2.1 "https://www.ycombinator.com".data
      "airhart".data "/jobs".data (by decide) (by decide) (by decide),
   extract_company_slug_spec.2.2.1 "index.html" (by decide)⟩

/-- A sample override value used to instantiate theorems at concrete
inputs. -/
def sampleOverride : RealData :=
  { founder_first := "Ada"
    founder_last := "Lovelace"
    founder_email := "ada@acme.com"
    founder_linkedin := "linkedin.com/in/ada"
    website := "acme.com" }

/-- C1: `is_pattern_data` returns true iff the trimmed first name is
`"Team"` or empty, the trimmed email starts with `"hello@"`, or the trimmed
LinkedIn value is empty; absent columns are read as `""` by the
`dict.get` default inside `dictGetD`, so they never raise and the
record with real values in all three fields classifies as false. -/
theorem is_pattern_data_iff (c : Dict) :
    is_pattern_data c = true ↔
      (pyStrip (dictGetD c "founder_first_name" "") = "Team" ∨
       pyStrip (dictGetD c "founder_first_name" "") = "" ∨
       pyStartsWith (pyStrip (dictGetD c "founder_email" "")) "hello@" = true ∨
       pyStrip (dictGetD c "founder_linkedin" "") = "") := by
  simp only [is_pattern_data]
  split_ifs with h1 h2 h3 <;> simp_all <;> tauto


/-- C9: the classification predicate re-implemented in each script is
extensionally the same function: `is_pattern_data` in
batch_extract_founders.py, `is_pattern_data` in get_founders_from_yc.py,
and the elif-chain selection condition inside
`get_companies_needing_founders` in find_founders_batch.py agree on every
record. -/
theorem classifier_implementations_agree (c : Dict) :
    is_pattern_data c = is_pattern_data_gfy c ∧
    is_pattern_data c = founders_select c :=
  ⟨rfl, rfl⟩

/-- C8: classification is a pure function of three founder
fields: two records that agree on `founder_first_name`, `founder_email`
and `founder_linkedin` classify identically, whatever their other fields
hold. -/
theorem is_pattern_data_pure (c1 c2 : Dict)
    (h1 : dictFind c1 "founder_first_name" = dictFind c2 "founder_first_name")
    (h2 : dictFind c1 "founder_email" = dictFind c2 "founder_email")
    (h3 : dictFind c1 "founder_linkedin" = dictFind c2 "founder_linkedin") :
    is_pattern_data c1 = is_pattern_data c2 := by
  simp only [is_pattern_data, dictGetD, h1, h2, h3]

/-- Witness for C8: two concrete records equal on the three founder fields
and different everywhere else classify identically. -/
theorem is_pattern_data_pure_witness :
    is_pattern_data
      [("founder_first_name", "Ada"), ("founder_email", "ada@acme.com"),
       ("founder_linkedin", "linkedin.com/in/ada"), ("batch", "S25")] =
    is_pattern_data
      [("company", "Q"), ("founder_first_name", "Ada"),
       ("founder_email", "ada@acme.com"),
       ("founder_linkedin", "linkedin.com/in/ada")] :=
  is_pattern_data_pure _ _ (by decide) (by decide) (by decide)

/-- C2 counterexample: the claim says a record whose `job_openings` field
is the empty string gets the default after merging, but
`company.get` with a default applies the default only when the
key is absent, so the empty string survives the merge. -/
theorem update_empty_job_openings_kept :
    dictFind (update_company_with_real_data [("job_openings", "")]
        sampleOverride) "job_openings" = some "" ∧
    ("" : String) ≠ "Software Engineering Intern, Product Intern" := by
  constructor
  · decide
  · decide

/-- C2 amended: merge sets each of `job_openings`, `funding_stage`,
`amount_raised`, `date_raised` to the existing record value whenever the
key is present — even when its value is the empty string — and to the fixed
default string only when the key is absent. -/
theorem update_merge_target_fields (c : Dict) (rd : RealData) :
    dictFind (update_company_with_real_data c rd) "job_openings" =
      some (dictGetD c "job_openings"
        "Software Engineering Intern, Product Intern") ∧
    dictFind (update_company_with_real_data c rd) "funding_stage" =
      some (dictGetD c "funding_stage" "Seed") ∧
    dictFind (update_company_with_real_data c rd) "amount_raised" =
      some (dictGetD c "amount_raised" "$1.5M") ∧
    dictFind (update_company_with_real_data c rd) "date_raised" =
      some (dictGetD c "date_raised" "Summer 2025") := by
  refine ⟨?_, ?_, ?_, ?_⟩ <;> simp [dictFind_update]

/-- C4: merge is idempotent — merging the same override into an
already-merged record changes nothing.  Equality of the two result records
is Python dict equality, i.e. key-by-key equality of lookups. -/
theorem update_company_idempotent (c : Dict) (rd : RealData) (k : String) :
    dictFind (update_company_with_real_data
        (update_company_with_real_data c rd) rd) k =
      dictFind (update_company_with_real_data c rd) k := by
  rw [dictFind_update (update_company_with_real_data c rd) rd k,
    dictFind_update c rd k]
  by_cases h1 : k = "data_quality"
  · simp [h1]
  by_cases h2 : k = "date_raised"
  · simp [h1, h2, dictGetD, dictFind_update]
  by_cases h3 : k = "amount_raised"
  · simp [h1, h2, h3, dictGetD, dictFind_update]
  by_cases h4 : k = "funding_stage"
  · simp [h1, h2, h3, h4, dictGetD, dictFind_update]
  by_cases h5 : k = "job_openings"
  · simp [h1, h2, h3, h4, h5, dictGetD, dictFind_update]
  by_cases h6 : k = "website"
  · simp [h1, h2, h3, h4, h5, h6]
  by_cases h7 : k = "founder_linkedin"
  · simp [h1, h2, h3, h4, h5, h6, h7]
  by_cases h8 : k = "founder_email"
  · simp [h1, h2, h3, h4, h5, h6, h7, h8]
  by_cases h9 : k = "founder_last_name"
  · simp [h1, h2, h3, h4, h5, h6, h7, h8, h9]
  by_cases h10 : k = "founder_first_name"
  · simp [h1, h2, h3, h4, h5, h6, h7, h8, h9, h10]
  simp [h1, h2, h3, h4, h5, h6, h7, h8, h9, h10, dictFind_update]

/-- C5: merge is a frame over the ten written keys — every other key reads
the same before and after the merge, and a key absent from the input and
outside the ten written keys is still absent afterwards.  Mutation of the
input record cannot be expressed here: `update_company_with_real_data` is a
pure function and `company` is untouched by construction, mirroring the
fresh dict built by the `{**company, ...}` literal. -/
theorem update_company_frame (c : Dict) (rd : RealData) :
    (∀ k, k ∉ (["founder_first_name", "founder_last_name", "founder_email",
        "founder_linkedin", "website", "job_openings", "funding_stage",
        "amount_raised", "date_raised", "data_quality"] : List String) →
      dictFind (update_company_with_real_data c rd) k = dictFind c k) ∧
    (∀ k, dictFind c k = none →
      k ∉ (["founder_first_name", "founder_last_name", "founder_email",
        "founder_linkedin", "website", "job_openings", "funding_stage",
        "amount_raised", "date_raised", "data_quality"] : List String) →
      dictFind (update_company_with_real_data c rd) k = none) := by
  constructor
  · intro k hk
    simp only [List.mem_cons, List.not_mem_nil, or_false, not_or] at hk
    obtain ⟨n1, n2, n3, n4, n5, n6, n7, n8, n9, n10⟩ := hk
    rw [dictFind_update]
    simp [n1, n2, n3, n4, n5, n6, n7, n8, n9, n10]
  · intro k hnone hk
    simp only [List.mem_cons, List.not_mem_nil, or_false, not_or] at hk
    obtain ⟨n1, n2, n3, n4, n5, n6, n7, n8, n9, n10⟩ := hk
    rw [dictFind_update]
    simp [n1, n2, n3, n4, n5, n6, n7, n8, n9, n10, hnone]

/-- Witness for C5: on a concrete record, a concrete unrelated key is
preserved by the merge and a concrete key absent on both sides stays
absent. -/
theorem update_company_frame_witness :
    dictFind (update_company_with_real_data [("yc_batch", "S25")]
      sampleOverride) "yc_batch" = dictFind [("yc_batch", "S25")] "yc_batch" ∧
    dictFind (update_company_with_real_data [("yc_batch", "S25")]
      sampleOverride) "hq_city" = none :=
  ⟨(update_company_frame [("yc_batch", "S25")] sampleOverride).1 "yc_batch"
      (by decide),
   (update_company_frame [("yc_batch", "S25")] sampleOverride).2 "hq_city"
      (by decide) (by decide)⟩

set_option maxHeartbeats 1600000 in
/-- The hardcoded `REAL_FOUNDER_DATA` override table of
batch_extract_founders.py (lines 11-539), in source order: company name
to manually researched founder fields. -/
def REAL_FOUNDER_DATA : List (String × RealData) := [
  ("Uplift AI", ⟨"Hammad", "Malik", "hammad@upliftai.org", "linkedin.com/in/hammad2", "upliftai.org"⟩),
  ("Freya", ⟨"Tunga", "Bayrak", "tunga@freyavoice.ai", "linkedin.com/in/tunga-bayrak", "freyavoice.ai"⟩),
  ("burnt", ⟨"Joseph", "Jacob", "joseph@getburnt.ai", "linkedin.com/in/josephjacob93", "getburnt.ai"⟩),
  ("Blue", ⟨"Omar", "Abdelaziz", "omar@heyblue.com", "linkedin.com/in/oabdelaziz", "heyblue.com"⟩),
  ("Avent", ⟨"Abhay", "Kalra", "abhay@aventindustrial.com", "linkedin.com/in/abhay-kalra-683688214", "aventindustrial.com"⟩),
  ("Cacao", ⟨"Alec", "Howard", "alec@cacaofi.com", "linkedin.com/in/alexandermhoward", "cacaofi.com"⟩),
  ("Veritus Agent", ⟨"Joshua", "March", "joshua@veritusagent.ai", "linkedin.com/in/joshuamarch", "veritusagent.ai"⟩),
  ("NOSO LABS", ⟨"Winston", "Chi", "winston@noso.so", "linkedin.com/in/lwchi", "noso.so"⟩),
  ("Vulcan Technologies", ⟨"Tanner", "Jones", "tanner@vulcan-tech.com", "linkedin.com/in/tanner-jones-817192167", "vulcan-tech.com"⟩),
  ("Spotlight Realty", ⟨"Raymond", "Allie", "raymond@spotlight.realty", "linkedin.com/in/raymond-allie", "spotlight.realty"⟩),
  ("Munify", ⟨"Khalid", "Ashmawy", "khalid@munify.ai", "linkedin.com/in/khalidashmawy", "munify.ai"⟩),
  ("TectoAI", ⟨"Niosha", "Afsharikia", "founders@tecto.ai", "linkedin.com/in/afsharikia", "tecto.ai"⟩),
  ("Duranium", ⟨"Brenden", "Prins-McKinney", "brenden@duranium.co", "linkedin.com/in/brenden-prins-mckinney-96959a69", "duranium.co"⟩),
  ("Perspectives Health", ⟨"Eshan", "Dosani", "eshan@perspectiveshealth.ai", "linkedin.com/in/eshan-dosani", "perspectiveshealth.ai"⟩),
  ("Magnetic", ⟨"Thomas", "Shelley", "thomas@magnetictax.com", "linkedin.com/in/thomasjshelley", "magnetictax.com"⟩),
  ("Fleetline", ⟨"Saurav", "Kumar", "saurav@fleetline.ai", "linkedin.com/in/sauravml", "fleetline.ai"⟩),
  ("Clodo", ⟨"Sid", "Rajaram", "sid@clodo.ai", "linkedin.com/in/sidharthrajaram", "clodo.ai"⟩),
  ("Flywheel AI", ⟨"Jash", "Mota", "jash@useflywheel.ai", "linkedin.com/in/jashmota", "useflywheel.ai"⟩),
  ("Juxta", ⟨"John", "Ferrara", "john@usejuxta.org", "linkedin.com/in/ferrara-john", "juxta.com"⟩),
  ("dScribe AI", ⟨"Warren", "Wijaya Wang", "warren@dscribeai.com", "linkedin.com/in/warrenwang-fnu", "dscribeai.com"⟩),
  ("Reacher", ⟨"Jerry", "Qian", "jerry@reacherapp.com", "linkedin.com/in/j-qian", "reacherapp.com"⟩),
  ("Hera", ⟨"Peter", "Tribelhorn", "peter@hera.video", "linkedin.com/in/peter-tribelhorn-36a967142", "hera.video"⟩),
  ("Nottelabs", ⟨"Andrea", "Pinto", "andrea@notte.cc", "linkedin.com/in/pinto-andrea", "notte.cc"⟩),
  ("Locata", ⟨"Alejandro", "Salinas", "alejandro@locatahealth.com", "linkedin.com/in/asalinas21", "locatahealth.com"⟩),
  ("Pleom", ⟨"Royce", "Arockiasamy", "royce@pleom.com", "linkedin.com/in/roycea1", "pleom.com"⟩),
  ("Convexia", ⟨"Ayaan", "Parikh", "ayaan@convexia.bio", "linkedin.com/in/ayaan-parikh", "convexia.bio"⟩),
  ("SigmanticAI", ⟨"Rohil", "Khare", "rohil@sigmanticai.com", "linkedin.com/in/rohil-khare", "sigmanticai.com"⟩),
  ("Opennote", ⟨"Rishi", "Srihari", "rishi@opennote.com", "linkedin.com/in/rishi-srihari", "opennote.com"⟩),
  ("Sira", ⟨"Nathan", "Belaye", "nathan@sira.team", "linkedin.com/in/nathan-belaye-931005149", "sira.team"⟩),
  ("F4", ⟨"Paul", "Shin", "paul@f4.dev", "linkedin.com/in/paul-hyoungsang-shin", "f4.dev"⟩),
  ("Eden", ⟨"Alex", "Talamonti", "alex@tryeden.ai", "linkedin.com/in/alexander-talamonti", "tryeden.ai"⟩),
  ("Altur", ⟨"Luis", "Olave", "luis@altur.io", "linkedin.com/in/luis-olave", "altur.io"⟩),
  ("PARES AI", ⟨"Zihao", "Wang", "zihao@pares.ai", "linkedin.com/in/zihao-wang-mh", "pares.ai"⟩),
  ("Avelis Health", ⟨"Angel", "Onuoha", "angel@avelishealth.com", "linkedin.com/in/angel-onuoha", "avelishealth.com"⟩),
  ("Nautilus", ⟨"Amayr", "Babar", "amayr@nautilus.co", "linkedin.com/in/amayrbabar", "nautilus.co"⟩),
  ("Humoniq", ⟨"Todd", "Sullivan", "todd@humoniq.ai", "linkedin.com/in/todsul", "humoniq.ai"⟩),
  ("Palace", ⟨"Leeds", "Rising", "leeds@palace.so", "linkedin.com/in/leedsrising", "palace.so"⟩),
  ("Idler", ⟨"Ivan", "Chub", "ivan@idler.ai", "linkedin.com/in/ivanchub", "idler.ai"⟩),
  ("Floot", ⟨"Yujian", "Yao", "yujian@floot.com", "linkedin.com/in/yjyao", "floot.com"⟩),
  ("Alara", ⟨"Sabrine", "Obbad", "sabrine@alaradental.com", "linkedin.com/in/sabrineobbad", "alaradental.com"⟩),
  ("Socratix AI", ⟨"Riya", "Jagetia", "riya@getsocratix.ai", "linkedin.com/in/riya-jagetia", "getsocratix.ai"⟩),
  ("Minimal AI", ⟨"Niek", "Hogenboom", "niek@gominimal.ai", "linkedin.com/in/niek-hogenboom", "gominimal.ai"⟩),
  ("Risely AI", ⟨"Shahryar", "Abbasi", "founders@risely.ai", "linkedin.com/in/shahryarabbasi", "risely.ai"⟩),
  ("Omnara", ⟨"Ishaan", "Sehgal", "ishaan@omnara.com", "linkedin.com/in/ishaan-sehgal", "omnara.com"⟩),
  ("Knowlify", ⟨"Ritam", "Rana", "ritam@knowlify.net", "linkedin.com/in/ritamrana", "knowlify.net"⟩),
  ("Autosana", ⟨"Yuvan", "Sundrani", "yuvan@autosana.ai", "linkedin.com/in/yuvan-sundrani", "autosana.ai"⟩),
  ("April", ⟨"Neha", "Suresh", "neha@tryapril.com", "linkedin.com/in/nehasuresh1904", "tryapril.com"⟩),
  ("Iron Grid", ⟨"Fern", "Morrison", "fern@getirongrid.com", "linkedin.com/in/elizabeth-fern-morrison", "getirongrid.com"⟩),
  ("Finto", ⟨"Jonas", "Morgner", "jonasm@finto.de", "linkedin.com/in/jonasmorgner", "gofinto.com"⟩),
  ("Motives", ⟨"Sean", "Conley", "sean@motives.ai", "linkedin.com/in/sean-conley-397b69b8", "motives.ai"⟩),
  ("Relling", ⟨"Jai", "Relan", "jai@relling.co", "linkedin.com/in/jairelan", "relling.co"⟩),
  ("mcp-use", ⟨"Pietro", "Zullo", "pietro@mcp-use.com", "linkedin.com/in/pietrozullo", "mcp-use.com"⟩),
  ("Novaflow", ⟨"Aman", "Agarwal", "aman@novaflowapp.com", "linkedin.com/in/aman-agarwal-ca", "novaflowapp.com"⟩),
  ("Perseus Defense", ⟨"Jason", "Cornelius", "jason@perseusdefense.com", "linkedin.com/in/jason-k-cornelius", "perseusdefense.com"⟩),
  ("Phases", ⟨"James", "Wall", "james@phases.ai", "linkedin.com/in/j-m-wall", "phases.ai"⟩),
  ("Solva", ⟨"Herman", "BÃ¥verud Olsson", "herman@solvatechnology.com", "linkedin.com/in/hermanbaverudolsson", "solvatechnology.com"⟩),
  ("Albacore Inc.", ⟨"John", "Huddleston", "john@albacore.inc", "linkedin.com/in/john-huddleston-3584121b7", "albacore.inc"⟩),
  ("Riff", ⟨"Adith", "Reddi", "adith@goriff.com", "linkedin.com/in/adithreddi", "goriff.com"⟩),
  ("Mohi", ⟨"Evan", "Seeyave", "evan@trymohi.com", "linkedin.com/in/evanseeyave", "trymohi.com"⟩),
  ("Mimos", ⟨"Rohit", "Sirosh", "rohit@trymimos.com", "linkedin.com/in/rohit-sirosh", "trymimos.com"⟩),
  ("Nozomio", ⟨"Arlan", "Rakhmetzhanov", "arlan@nozomio.com", "linkedin.com/in/arlan-rakhmetzhanov", "nozomio.com"⟩),
  ("VibeFlow", ⟨"Alessia", "Paccagnella", "alessia@vibeflow.ai", "linkedin.com/in/alepacca", "vibeflow.ai"⟩),
  ("Comena", ⟨"Jiehua", "Wu", "jiehua.wu@comena.ai", "linkedin.com/in/jiehua-wu", "comena.ai"⟩),
  ("Normal", ⟨"Anson", "Yu", "anson@normalfactory.com", "linkedin.com/in/anson-yu-231336141", "normalfactory.com"⟩),
  ("GhostEye", ⟨"Mohammad", "Eshan", "founders@ghosteye.ai", "linkedin.com/in/moheshan", "ghosteye.ai"⟩),
  ("Channel3", ⟨"Alexander", "Schiff", "founders@trychannel3.com", "linkedin.com/in/alexanderschiff", "trychannel3.com"⟩),
  ("Epicenter", ⟨"Braden", "Wong", "braden@epicenter.md", "linkedin.com/in/braden-wong", "epicenter.md"⟩),
  ("Candytrail", ⟨"Aditya", "Mahna", "founders@candytrail.ai", "linkedin.com/in/aditya-mahna-b57256325", "candytrail.ai"⟩),
  ("Embedder", ⟨"Ethan", "Gibbs", "founders@embedder.dev", "linkedin.com/in/etgibbs", "embedder.com"⟩),
  ("Flai", ⟨"Ari", "Polakof", "founders@useflai.com", "linkedin.com/in/ari-polakof-78b976150", "useflai.com"⟩),
  ("b-12", ⟨"Zlatko", "JonÄev", "founders@b12-labs.com", "linkedin.com/in/zlatkojoncev", "b12-labs.com"⟩),
  ("Trace", ⟨"Tim", "Cherkasov", "founders@trace.so", "linkedin.com/in/timcherkasov", "trace.so"⟩),
  ("The Interface", ⟨"Max", "Raven", "founders@theinterface.com", "linkedin.com/in/ravenmax", "theinterface.com"⟩),
  ("IronLedger.ai", ⟨"Nick", "Amore", "sales@ironledger.ai", "linkedin.com/in/nick-amore-6391a7129", "ironledger.ai"⟩),
  ("Doe", ⟨"Adrian", "Barbir", "founders@doe.so", "linkedin.com/in/adrianbarbir", "doe.so"⟩)
]

section TableLemmas

/-- The classification of a merged record depends only on the three
override founder fields, since merging overwrites exactly the fields the
classifier reads. -/
theorem is_pattern_update (c : Dict) (rd : RealData) :
    is_pattern_data (update_company_with_real_data c rd) =
      (pyStrip rd.founder_first == "Team" || pyStrip rd.founder_first == "" ||
       pyStartsWith (pyStrip rd.founder_email) "hello@" ||
       pyStrip rd.founder_linkedin == "") := by
  have hf : dictGetD (update_company_with_real_data c rd)
      "founder_first_name" "" = rd.founder_first := by
    simp [dictGetD, dictFind_update]
  have he : dictGetD (update_company_with_real_data c rd)
      "founder_email" "" = rd.founder_email := by
    simp [dictGetD, dictFind_update]
  have hl : dictGetD (update_company_with_real_data c rd)
      "founder_linkedin" "" = rd.founder_linkedin := by
    simp [dictGetD, dictFind_update]
  cases h1 : (pyStrip rd.founder_first == "Team" || pyStrip rd.founder_first == "") <;>
  cases h2 : pyStartsWith (pyStrip rd.founder_email) "hello@" <;>
  cases h3 : (pyStrip rd.founder_linkedin == "") <;>
    simp [is_pattern_data, hf, he, hl, h1, h2, h3, Bool.or_assoc]

/-- Every entry of the hardcoded table has a non-empty first name different
from `"Team"`, an email not starting with `"hello@"`, and a non-empty
LinkedIn value. -/
theorem real_founder_data_entries_real :
    (REAL_FOUNDER_DATA.all (fun p =>
      !(pyStrip p.2.founder_first == "Team" || pyStrip p.2.founder_first == "" ||
        pyStartsWith (pyStrip p.2.founder_email) "hello@" ||
        pyStrip p.2.founder_linkedin == ""))) = true := by decide

/-- Shared helper: merging any table entry into any record yields a record
the classifier calls real. -/
theorem merge_entry_not_pattern (c : Dict) (p : String × RealData)
    (hp : p ∈ REAL_FOUNDER_DATA) :
    is_pattern_data (update_company_with_real_data c p.2) = false := by
  have hall := real_founder_data_entries_real
  rw [List.all_eq_true] at hall
  have hgood := hall p hp
  rw [is_pattern_update]
  simpa using hgood

end TableLemmas

/-- C10: merging any override entry of `REAL_FOUNDER_DATA` into any record
produces a record that `is_pattern_data` classifies as real (false). -/
theorem table_merge_not_pattern (c : Dict) (p : String × RealData)
    (hp : p ∈ REAL_FOUNDER_DATA) :
    is_pattern_data (update_company_with_real_data c p.2) = false :=
  merge_entry_not_pattern c p hp

/-- Witness for C10: the first table entry merged into the empty record is
classified real. -/
theorem table_merge_not_pattern_witness :
    is_pattern_data (update_company_with_real_data []
      ("Uplift AI", (⟨"Hammad", "Malik", "hammad@upliftai.org",
        "linkedin.com/in/hammad2", "upliftai.org"⟩ : RealData)).2) = false :=
  table_merge_not_pattern []
    ("Uplift AI", (⟨"Hammad", "Malik", "hammad@upliftai.org",
      "linkedin.com/in/hammad2", "upliftai.org"⟩ : RealData))
    (by decide)

/-! ### Batch driver (`main` of batch_extract_founders.py, lines 577-628)

The loop (lines 594-602) walks the row list in order; a row whose
`Company_Name` is a key of `REAL_FOUNDER_DATA` and which classifies as
pattern data is overwritten in place (`company.update(updated_company)`)
with the merge result and counted in `updated_count`; every other row is
left untouched.  Afterwards `pattern_count` is the number of rows of the
(updated) list still classified pattern, and `real_count` is the total
minus `pattern_count` (lines 605-607).  The Python key-membership test plus
indexing is the `find?` of the association-list table. -/

def processCompany (tbl : List (String × RealData)) (company : Dict) :
    Dict :=
  let company_name := dictGetD company "Company_Name" ""
  match tbl.find? (fun p => p.1 == company_name) with
  | some p =>
    if is_pattern_data company then
      update_company_with_real_data company p.2
    else company
  | none => company

def main_updated_companies (tbl : List (String × RealData))
    (companies : List Dict) : List Dict :=
  companies.map (processCompany tbl)

def main_updated_count (tbl : List (String × RealData))
    (companies : List Dict) : Nat :=
  (companies.filter (fun c =>
    (tbl.find? (fun p => p.1 == dictGetD c "Company_Name" "")).isSome
      && is_pattern_data c)).length

def main_pattern_count (companies : List Dict) : Nat :=
  (companies.filter (fun c => is_pattern_data c)).length

def main_real_count (companies : List Dict) : Nat :=
  companies.length - main_pattern_count companies

/-- C7: the batch driver maps the row list to a list of the same length in
the same order; a row whose `Company_Name` has a table entry and which
classifies as pattern data is replaced by its merge result, and every
other row is passed through unchanged. -/
theorem main_processing_spec (companies : List Dict) :
    (main_updated_companies REAL_FOUNDER_DATA companies).length =
      companies.length ∧
    (∀ (i : Nat) (c : Dict), companies[i]? = some c →
      ∀ p, REAL_FOUNDER_DATA.find?
          (fun q => q.1 == dictGetD c "Company_Name" "") = some p →
        is_pattern_data c = true →
        (main_updated_companies REAL_FOUNDER_DATA companies)[i]? =
          some (update_company_with_real_data c p.2)) ∧
    (∀ (i : Nat) (c : Dict), companies[i]? = some c →
      (REAL_FOUNDER_DATA.find?
          (fun q => q.1 == dictGetD c "Company_Name" "") = none ∨
        is_pattern_data c = false) →
      (main_updated_companies REAL_FOUNDER_DATA companies)[i]? = some c) := by
  refine ⟨by simp [main_updated_companies], ?_, ?_⟩
  · intro i c hc p hfind hpat
    rw [main_updated_companies, List.getElem?_map, hc]
    simp [processCompany, hfind, hpat]
  · intro i c hc hother
    rw [main_updated_companies, List.getElem?_map, hc]
    rcases hother with hnone | hreal
    · simp [processCompany, hnone]
    · cases hfind : REAL_FOUNDER_DATA.find?
          (fun q => q.1 == dictGetD c "Company_Name" "") with
      | none => simp [processCompany, hfind]
      | some p => simp [processCompany, hfind, hreal]

/-- Witness for C7: a pattern row named like the first table entry is
merged, and a real row is passed through, on a concrete two-row input. -/
theorem main_processing_spec_witness :
    (main_updated_companies REAL_FOUNDER_DATA
        [[("Company_Name", "Uplift AI"), ("founder_first_name", "Team")],
         [("Company_Name", "Elsewhere Labs"), ("founder_first_name", "Ada"),
          ("founder_email", "ada@elsewhere.dev"),
          ("founder_linkedin", "linkedin.com/in/ada")]])[0]? =
      some (update_company_with_real_data
        [("Company_Name", "Uplift AI"), ("founder_first_name", "Team")]
        (⟨"Hammad", "Malik", "hammad@upliftai.org", "linkedin.com/in/hammad2",
          "upliftai.org"⟩ : RealData)) ∧
    (main_updated_companies REAL_FOUNDER_DATA
        [[("Company_Name", "Uplift AI"), ("founder_first_name", "Team")],
         [("Company_Name", "Elsewhere Labs"), ("founder_first_name", "Ada"),
          ("founder_email", "ada@elsewhere.dev"),
          ("founder_linkedin", "linkedin.com/in/ada")]])[1]? =
      some [("Company_Name", "Elsewhere Labs"), ("founder_first_name", "Ada"),
        ("founder_email", "ada@elsewhere.dev"),
        ("founder_linkedin", "linkedin.com/in/ada")] :=
  ⟨(main_processing_spec _).2.1 0
      [("Company_Name", "Uplift AI"), ("founder_first_name", "Team")] rfl
      ("Uplift AI", ⟨"Hammad", "Malik", "hammad@upliftai.org",
        "linkedin.com/in/hammad2", "upliftai.org"⟩) (by decide) (by decide),
   (main_processing_spec _).2.2 1
      [("Company_Name", "Elsewhere Labs"), ("founder_first_name", "Ada"),
       ("founder_email", "ada@elsewhere.dev"),
       ("founder_linkedin", "linkedin.com/in/ada")] rfl
      (Or.inr (by decide))⟩

/-- First scenario row: a placeholder row whose company name has an
override entry (the first table key). -/
def row_pattern_override : Dict :=
  [("Company_Name", "Uplift AI"), ("founder_first_name", "Team"),
   ("founder_email", "hello@uplift.ai"), ("founder_linkedin", "")]

/-- Second scenario row: a placeholder row with no override entry. -/
def row_pattern_no_override : Dict :=
  [("Company_Name", "Zenith Cardboard"), ("founder_first_name", ""),
   ("founder_email", ""), ("founder_linkedin", "")]

/-- Third scenario row: an already-real row. -/
def row_real : Dict :=
  [("Company_Name", "Radiant Metrics"), ("founder_first_name", "Alice"),
   ("founder_email", "alice@radiantmetrics.com"),
   ("founder_linkedin", "linkedin.com/in/alice-r")]

/-- C3 counterexample: on a concrete 3-row input matching the claimed
scenario — a placeholder row with an override entry, a placeholder row
without one, and an already-real row — the driver summary is total=3,
updated=1, still_pattern=1 but real=2, not real=1: `real_count` is
`len(companies) - pattern_count` computed after the update pass, so the
freshly updated row is also counted as real. -/
theorem batch_scenario_real_count_two :
    ((REAL_FOUNDER_DATA.find? (fun q =>
        q.1 == dictGetD row_pattern_override "Company_Name" "")).isSome
          = true ∧
      is_pattern_data row_pattern_override = true) ∧
    ((REAL_FOUNDER_DATA.find? (fun q =>
        q.1 == dictGetD row_pattern_no_override "Company_Name" "")).isSome
          = false ∧
      is_pattern_data row_pattern_no_override = true) ∧
    is_pattern_data row_real = false ∧
    ([row_pattern_override, row_pattern_no_override, row_real] :
      List Dict).length = 3 ∧
    main_updated_count REAL_FOUNDER_DATA
      [row_pattern_override, row_pattern_no_override, row_real] = 1 ∧
    main_pattern_count (main_updated_companies REAL_FOUNDER_DATA
      [row_pattern_override, row_pattern_no_override, row_real]) = 1 ∧
    main_real_count (main_updated_companies REAL_FOUNDER_DATA
      [row_pattern_override, row_pattern_no_override, row_real]) = 2 ∧
    main_real_count (main_updated_companies REAL_FOUNDER_DATA
      [row_pattern_override, row_pattern_no_override, row_real]) ≠ 1 := by
  decide

/-- C3 amended: for every 3-row input made of a placeholder row with an
override entry, a placeholder row without one, and an already-real row,
exactly the first row changes and the summary counts are total=3,
updated=1, still_pattern=1, real=2. -/
theorem batch_scenario_summary (r1 r2 r3 : Dict) (p : String × RealData)
    (h1a : REAL_FOUNDER_DATA.find?
      (fun q => q.1 == dictGetD r1 "Company_Name" "") = some p)
    (h1b : is_pattern_data r1 = true)
    (h2a : REAL_FOUNDER_DATA.find?
      (fun q => q.1 == dictGetD r2 "Company_Name" "") = none)
    (h2b : is_pattern_data r2 = true)
    (h3 : is_pattern_data r3 = false) :
    main_updated_companies REAL_FOUNDER_DATA [r1, r2, r3] =
      [update_company_with_real_data r1 p.2, r2, r3] ∧
    update_company_with_real_data r1 p.2 ≠ r1 ∧
    ([r1, r2, r3] : List Dict).length = 3 ∧
    main_updated_count REAL_FOUNDER_DATA [r1, r2, r3] = 1 ∧
    main_pattern_count
      (main_updated_companies REAL_FOUNDER_DATA [r1, r2, r3]) = 1 ∧
    main_real_count
      (main_updated_companies REAL_FOUNDER_DATA [r1, r2, r3]) = 2 := by
  have hmem : p ∈ REAL_FOUNDER_DATA := List.mem_of_find?_eq_some h1a
  have hup : is_pattern_data (update_company_with_real_data r1 p.2) = false :=
    merge_entry_not_pattern r1 p hmem
  have e1 : processCompany REAL_FOUNDER_DATA r1 =
      update_company_with_real_data r1 p.2 := by
    simp [processCompany, h1a, h1b]
  have e2 : processCompany REAL_FOUNDER_DATA r2 = r2 := by
    simp [processCompany, h2a]
  have e3 : processCompany REAL_FOUNDER_DATA r3 = r3 := by
    cases hfind : REAL_FOUNDER_DATA.find?
        (fun q => q.1 == dictGetD r3 "Company_Name" "") with
    | none => simp [processCompany, hfind]
    | some q => simp [processCompany, hfind, h3]
  have hlist : main_updated_companies REAL_FOUNDER_DATA [r1, r2, r3] =
      [update_company_with_real_data r1 p.2, r2, r3] := by
    simp [main_updated_companies, e1, e2, e3]
  refine ⟨hlist, ?_, rfl, ?_, ?_, ?_⟩
  · intro he
    rw [he] at hup
    exact absurd (h1b.symm.trans hup) (by decide)
  · simp [main_updated_count, h1a, h1b, h2a, h2b, h3]
  · rw [hlist]
    simp [main_pattern_count, hup, h2b, h3]
  · rw [hlist]
    simp [main_real_count, main_pattern_count, hup, h2b, h3]

/-- Witness for C3: the amended scenario theorem applied to the three
concrete scenario rows gives the corrected summary count real=2. -/
theorem batch_scenario_summary_witness :
    main_real_count (main_updated_companies REAL_FOUNDER_DATA
      [row_pattern_override, row_pattern_no_override, row_real]) = 2 :=
  (batch_scenario_summary row_pattern_override row_pattern_no_override
    row_real
    ("Uplift AI", ⟨"Hammad", "Malik", "hammad@upliftai.org",
      "linkedin.com/in/hammad2", "upliftai.org"⟩)
    (by decide) (by decide) (by decide) (by decide) (by decide)).2.2.2.2.2
